import Mathlib

/-!
Shallow embedding of the SDL2 game-window input layer
(`src/window_sdl2.cpp`): scancode-to-keycode mapping, keyboard text
synthesis, event dispatch, gamepad session tracking, and mouse routing.
Callback invocations are modelled as lists of call records, in the order
the code would issue them.
-/

namespace GameWindow

/-! ## SDL2 scancode constants (public values from SDL_scancode.h) -/

abbrev SDL_SCANCODE_A : Nat := 4
abbrev SDL_SCANCODE_Z : Nat := 29
abbrev SDL_SCANCODE_1 : Nat := 30
abbrev SDL_SCANCODE_2 : Nat := 31
abbrev SDL_SCANCODE_3 : Nat := 32
abbrev SDL_SCANCODE_4 : Nat := 33
abbrev SDL_SCANCODE_5 : Nat := 34
abbrev SDL_SCANCODE_6 : Nat := 35
abbrev SDL_SCANCODE_7 : Nat := 36
abbrev SDL_SCANCODE_8 : Nat := 37
abbrev SDL_SCANCODE_9 : Nat := 38
abbrev SDL_SCANCODE_0 : Nat := 39
abbrev SDL_SCANCODE_ESCAPE : Nat := 41
abbrev SDL_SCANCODE_BACKSPACE : Nat := 42
abbrev SDL_SCANCODE_TAB : Nat := 43
abbrev SDL_SCANCODE_SPACE : Nat := 44
abbrev SDL_SCANCODE_MINUS : Nat := 45
abbrev SDL_SCANCODE_EQUALS : Nat := 46
abbrev SDL_SCANCODE_LEFTBRACKET : Nat := 47
abbrev SDL_SCANCODE_RIGHTBRACKET : Nat := 48
abbrev SDL_SCANCODE_BACKSLASH : Nat := 49
abbrev SDL_SCANCODE_SEMICOLON : Nat := 51
abbrev SDL_SCANCODE_COMMA : Nat := 54
abbrev SDL_SCANCODE_PERIOD : Nat := 55
abbrev SDL_SCANCODE_SLASH : Nat := 56
abbrev SDL_SCANCODE_CAPSLOCK : Nat := 57
abbrev SDL_SCANCODE_INSERT : Nat := 73
abbrev SDL_SCANCODE_HOME : Nat := 74
abbrev SDL_SCANCODE_PAGEUP : Nat := 75
abbrev SDL_SCANCODE_DELETE : Nat := 76
abbrev SDL_SCANCODE_END : Nat := 77
abbrev SDL_SCANCODE_PAGEDOWN : Nat := 78
abbrev SDL_SCANCODE_RIGHT : Nat := 79
abbrev SDL_SCANCODE_LEFT : Nat := 80
abbrev SDL_SCANCODE_DOWN : Nat := 81
abbrev SDL_SCANCODE_KP_MINUS : Nat := 86
abbrev SDL_SCANCODE_KP_PLUS : Nat := 87
abbrev SDL_SCANCODE_KP_1 : Nat := 89
abbrev SDL_SCANCODE_KP_2 : Nat := 90
abbrev SDL_SCANCODE_KP_3 : Nat := 91
abbrev SDL_SCANCODE_KP_4 : Nat := 92
abbrev SDL_SCANCODE_KP_5 : Nat := 93
abbrev SDL_SCANCODE_KP_6 : Nat := 94
abbrev SDL_SCANCODE_KP_7 : Nat := 95
abbrev SDL_SCANCODE_KP_8 : Nat := 96
abbrev SDL_SCANCODE_KP_9 : Nat := 97
abbrev SDL_SCANCODE_KP_0 : Nat := 98
abbrev SDL_SCANCODE_MENU : Nat := 118
abbrev SDL_SCANCODE_LCTRL : Nat := 224
abbrev SDL_SCANCODE_LSHIFT : Nat := 225
abbrev SDL_SCANCODE_LALT : Nat := 226
abbrev SDL_SCANCODE_RCTRL : Nat := 228
abbrev SDL_SCANCODE_RSHIFT : Nat := 229
abbrev SDL_SCANCODE_RALT : Nat := 230
abbrev SDL_SCANCODE_AC_HOME : Nat := 269
abbrev SDL_SCANCODE_AC_BACK : Nat := 270

/-- Modelled from the spec: the `KeyCode` enumeration (`enum class KeyCode : int`
in the repository's `game_window.h`, a header not under `src/`) is a closed set
of engine-neutral key identifiers with an `UNKNOWN` sentinel.  The spec fixes
its numeric structure only where the claims depend on it: letters occupy the
contiguous range of their character code points (forced by the source's
`(KeyCode)(keyCode+61)` letter branch, which sends scancode 4 = A to 65), and
digit keys sit at their character code points so that the text-synthesis rule
"UTF-8 encoding of the key's code point" produces the digit characters.  The
remaining identifiers only need to be pairwise distinct; they are given
Windows-virtual-key-style values outside the letter range. -/
abbrev KeyCode := Nat

namespace KeyCode

abbrev UNKNOWN : KeyCode := 0
abbrev BACK : KeyCode := 1
abbrev BACKSPACE : KeyCode := 8
abbrev TAB : KeyCode := 9
abbrev ENTER : KeyCode := 13
abbrev LEFT_SHIFT : KeyCode := 16
abbrev LEFT_CTRL : KeyCode := 17
abbrev LEFT_ALT : KeyCode := 18
abbrev CAPS_LOCK : KeyCode := 20
abbrev ESCAPE : KeyCode := 27
abbrev SPACE : KeyCode := 32
abbrev PAGE_UP : KeyCode := 33
abbrev PAGE_DOWN : KeyCode := 34
abbrev END : KeyCode := 35
abbrev HOME : KeyCode := 36
abbrev LEFT : KeyCode := 37
abbrev RIGHT : KeyCode := 39
abbrev DOWN : KeyCode := 40
abbrev INSERT : KeyCode := 45
abbrev DELETE : KeyCode := 46
abbrev NUM_0 : KeyCode := 48
abbrev NUM_1 : KeyCode := 49
abbrev NUM_2 : KeyCode := 50
abbrev NUM_3 : KeyCode := 51
abbrev NUM_4 : KeyCode := 52
abbrev NUM_5 : KeyCode := 53
abbrev NUM_6 : KeyCode := 54
abbrev NUM_7 : KeyCode := 55
abbrev NUM_8 : KeyCode := 56
abbrev NUM_9 : KeyCode := 57
abbrev MENU : KeyCode := 93
abbrev NUMPAD_0 : KeyCode := 96
abbrev NUMPAD_1 : KeyCode := 97
abbrev NUMPAD_2 : KeyCode := 98
abbrev NUMPAD_3 : KeyCode := 99
abbrev NUMPAD_4 : KeyCode := 100
abbrev NUMPAD_5 : KeyCode := 101
abbrev NUMPAD_6 : KeyCode := 102
abbrev NUMPAD_7 : KeyCode := 103
abbrev NUMPAD_8 : KeyCode := 104
abbrev NUMPAD_9 : KeyCode := 105
abbrev NUMPAD_ADD : KeyCode := 107
abbrev NUMPAD_SUBTRACT : KeyCode := 109
abbrev RIGHT_SHIFT : KeyCode := 161
abbrev RIGHT_CTRL : KeyCode := 163
abbrev RIGHT_ALT : KeyCode := 165
abbrev SEMICOLON : KeyCode := 186
abbrev EQUAL : KeyCode := 187
abbrev COMMA : KeyCode := 188
abbrev MINUS : KeyCode := 189
abbrev PERIOD : KeyCode := 190
abbrev SLASH : KeyCode := 191
abbrev LEFT_BRACKET : KeyCode := 219
abbrev BACKSLASH : KeyCode := 220
abbrev RIGHT_BRACKET : KeyCode := 221

end KeyCode

/-- Embedding of `SDL2GameWindow::getKeyMinecraft` (window_sdl2.cpp:313-431):
a `switch` over the scancode.  The cases are pairwise disjoint, so the
first-match `if` chain below has exactly the switch's semantics; the
`SDL_SCANCODE_A ... SDL_SCANCODE_Z` GNU case range becomes the range test, and
the fall-off-the-end `return KeyCode::UNKNOWN` is the final branch. -/
def getKeyMinecraft (keyCode : Nat) : KeyCode :=
  if keyCode = SDL_SCANCODE_0 then KeyCode.NUM_0
  else if keyCode = SDL_SCANCODE_1 then KeyCode.NUM_1
  else if keyCode = SDL_SCANCODE_2 then KeyCode.NUM_2
  else if keyCode = SDL_SCANCODE_3 then KeyCode.NUM_3
  else if keyCode = SDL_SCANCODE_4 then KeyCode.NUM_4
  else if keyCode = SDL_SCANCODE_5 then KeyCode.NUM_5
  else if keyCode = SDL_SCANCODE_6 then KeyCode.NUM_6
  else if keyCode = SDL_SCANCODE_7 then KeyCode.NUM_7
  else if keyCode = SDL_SCANCODE_8 then KeyCode.NUM_8
  else if keyCode = SDL_SCANCODE_9 then KeyCode.NUM_9
  else if SDL_SCANCODE_A ≤ keyCode ∧ keyCode ≤ SDL_SCANCODE_Z then keyCode + 61
  else if keyCode = SDL_SCANCODE_BACKSLASH then KeyCode.BACKSLASH
  else if keyCode = SDL_SCANCODE_AC_HOME then KeyCode.HOME
  else if keyCode = SDL_SCANCODE_AC_BACK then KeyCode.BACK
  else if keyCode = SDL_SCANCODE_BACKSPACE then KeyCode.BACKSPACE
  else if keyCode = SDL_SCANCODE_CAPSLOCK then KeyCode.CAPS_LOCK
  else if keyCode = SDL_SCANCODE_COMMA then KeyCode.COMMA
  else if keyCode = SDL_SCANCODE_DELETE then KeyCode.DELETE
  else if keyCode = SDL_SCANCODE_DOWN then KeyCode.DOWN
  else if keyCode = SDL_SCANCODE_END then KeyCode.END
  else if keyCode = SDL_SCANCODE_EQUALS then KeyCode.EQUAL
  else if keyCode = SDL_SCANCODE_ESCAPE then KeyCode.ESCAPE
  else if keyCode = SDL_SCANCODE_HOME then KeyCode.HOME
  else if keyCode = SDL_SCANCODE_INSERT then KeyCode.INSERT
  else if keyCode = SDL_SCANCODE_KP_0 then KeyCode.NUMPAD_0
  else if keyCode = SDL_SCANCODE_KP_1 then KeyCode.NUMPAD_1
  else if keyCode = SDL_SCANCODE_KP_2 then KeyCode.NUMPAD_2
  else if keyCode = SDL_SCANCODE_KP_3 then KeyCode.NUMPAD_3
  else if keyCode = SDL_SCANCODE_KP_4 then KeyCode.NUMPAD_4
  else if keyCode = SDL_SCANCODE_KP_5 then KeyCode.NUMPAD_5
  else if keyCode = SDL_SCANCODE_KP_6 then KeyCode.NUMPAD_6
  else if keyCode = SDL_SCANCODE_KP_7 then KeyCode.NUMPAD_7
  else if keyCode = SDL_SCANCODE_KP_8 then KeyCode.NUMPAD_8
  else if keyCode = SDL_SCANCODE_KP_9 then KeyCode.NUMPAD_9
  else if keyCode = SDL_SCANCODE_KP_MINUS then KeyCode.NUMPAD_SUBTRACT
  else if keyCode = SDL_SCANCODE_KP_PLUS then KeyCode.NUMPAD_ADD
  else if keyCode = SDL_SCANCODE_LALT then KeyCode.LEFT_ALT
  else if keyCode = SDL_SCANCODE_LCTRL then KeyCode.LEFT_CTRL
  else if keyCode = SDL_SCANCODE_LEFT then KeyCode.LEFT
  else if keyCode = SDL_SCANCODE_LEFTBRACKET then KeyCode.LEFT_BRACKET
  else if keyCode = SDL_SCANCODE_LSHIFT then KeyCode.LEFT_SHIFT
  else if keyCode = SDL_SCANCODE_MENU then KeyCode.MENU
  else if keyCode = SDL_SCANCODE_MINUS then KeyCode.MINUS
  else if keyCode = SDL_SCANCODE_PAGEDOWN then KeyCode.PAGE_DOWN
  else if keyCode = SDL_SCANCODE_PAGEUP then KeyCode.PAGE_UP
  else if keyCode = SDL_SCANCODE_PERIOD then KeyCode.PERIOD
  else if keyCode = SDL_SCANCODE_RALT then KeyCode.RIGHT_ALT
  else if keyCode = SDL_SCANCODE_RCTRL then KeyCode.RIGHT_CTRL
  else if keyCode = SDL_SCANCODE_RIGHT then KeyCode.RIGHT
  else if keyCode = SDL_SCANCODE_RIGHTBRACKET then KeyCode.RIGHT_BRACKET
  else if keyCode = SDL_SCANCODE_RSHIFT then KeyCode.RIGHT_SHIFT
  else if keyCode = SDL_SCANCODE_SEMICOLON then KeyCode.SEMICOLON
  else if keyCode = SDL_SCANCODE_SLASH then KeyCode.SLASH
  else if keyCode = SDL_SCANCODE_SPACE then KeyCode.SPACE
  else if keyCode = SDL_SCANCODE_TAB then KeyCode.TAB
  else KeyCode.UNKNOWN

/-- The scancodes the `switch` in `getKeyMinecraft` covers explicitly:
the ten digit cases, the `A ... Z` case range, and the individually listed
punctuation/navigation/modifier/numpad cases. -/
def scancodeCovered (s : Nat) : Prop :=
  (SDL_SCANCODE_A ≤ s ∧ s ≤ SDL_SCANCODE_Z) ∨
  s ∈ [SDL_SCANCODE_0, SDL_SCANCODE_1, SDL_SCANCODE_2, SDL_SCANCODE_3,
    SDL_SCANCODE_4, SDL_SCANCODE_5, SDL_SCANCODE_6, SDL_SCANCODE_7,
    SDL_SCANCODE_8, SDL_SCANCODE_9, SDL_SCANCODE_BACKSLASH,
    SDL_SCANCODE_AC_HOME, SDL_SCANCODE_AC_BACK, SDL_SCANCODE_BACKSPACE,
    SDL_SCANCODE_CAPSLOCK, SDL_SCANCODE_COMMA, SDL_SCANCODE_DELETE,
    SDL_SCANCODE_DOWN, SDL_SCANCODE_END, SDL_SCANCODE_EQUALS,
    SDL_SCANCODE_ESCAPE, SDL_SCANCODE_HOME, SDL_SCANCODE_INSERT,
    SDL_SCANCODE_KP_0, SDL_SCANCODE_KP_1, SDL_SCANCODE_KP_2,
    SDL_SCANCODE_KP_3, SDL_SCANCODE_KP_4, SDL_SCANCODE_KP_5,
    SDL_SCANCODE_KP_6, SDL_SCANCODE_KP_7, SDL_SCANCODE_KP_8,
    SDL_SCANCODE_KP_9, SDL_SCANCODE_KP_MINUS, SDL_SCANCODE_KP_PLUS,
    SDL_SCANCODE_LALT, SDL_SCANCODE_LCTRL, SDL_SCANCODE_LEFT,
    SDL_SCANCODE_LEFTBRACKET, SDL_SCANCODE_LSHIFT, SDL_SCANCODE_MENU,
    SDL_SCANCODE_MINUS, SDL_SCANCODE_PAGEDOWN, SDL_SCANCODE_PAGEUP,
    SDL_SCANCODE_PERIOD, SDL_SCANCODE_RALT, SDL_SCANCODE_RCTRL,
    SDL_SCANCODE_RIGHT, SDL_SCANCODE_RIGHTBRACKET, SDL_SCANCODE_RSHIFT,
    SDL_SCANCODE_SEMICOLON, SDL_SCANCODE_SLASH, SDL_SCANCODE_SPACE,
    SDL_SCANCODE_TAB]

instance (s : Nat) : Decidable (scancodeCovered s) := by
  unfold scancodeCovered; infer_instance

/-! ## Keyboard event handling (window_sdl2.cpp:254-289)

Text payloads are byte lists; a call to `onKeyboardText` is one byte list. -/

/-- UTF-8 encoding of a code point, as performed by the
`std::wstring_convert<std::codecvt_utf8<char32_t>, char32_t>::to_bytes`
call in `handleKeyboardEvent` (window_sdl2.cpp:265,276). -/
def utf8Encode (c : Nat) : List Nat :=
  if c < 0x80 then [c]
  else if c < 0x800 then [0xC0 + c / 0x40, 0x80 + c % 0x40]
  else if c < 0x10000 then
    [0xE0 + c / 0x1000, 0x80 + (c / 0x40) % 0x40, 0x80 + c % 0x40]
  else
    [0xF0 + c / 0x40000, 0x80 + (c / 0x1000) % 0x40,
     0x80 + (c / 0x40) % 0x40, 0x80 + c % 0x40]

/-- The `default:` arm of the text-synthesis `switch`
(window_sdl2.cpp:275-276): `onKeyboardText(cvt.to_bytes((int)key))`. -/
def textCallsFromDefault (key : KeyCode) : List (List Nat) :=
  [utf8Encode key]

/-- Calls issued from the `case KeyCode::LEFT:` label onward: the label's
`onKeyboardText("\x1B")` has no `break`, so control continues into the
`default:` arm (window_sdl2.cpp:273-276). -/
def textCallsFromLeft (key : KeyCode) : List (List Nat) :=
  [0x1B] :: textCallsFromDefault key

/-- Calls issued from the `case KeyCode::ENTER:` label onward; `"\n"` then
fall-through (window_sdl2.cpp:271-276). -/
def textCallsFromEnter (key : KeyCode) : List (List Nat) :=
  [0x0A] :: textCallsFromLeft key

/-- Calls issued from the `case KeyCode::DELETE:` label onward; `"\x7f"` then
fall-through (window_sdl2.cpp:269-276). -/
def textCallsFromDelete (key : KeyCode) : List (List Nat) :=
  [0x7F] :: textCallsFromEnter key

/-- Calls issued from the `case KeyCode::BACKSPACE:` label onward; `"\x08"`
then fall-through (window_sdl2.cpp:267-276). -/
def textCallsFromBackspace (key : KeyCode) : List (List Nat) :=
  [0x08] :: textCallsFromDelete key

/-- The inner `switch(key)` of the `SDL_PRESSED` branch of
`handleKeyboardEvent` (window_sdl2.cpp:266-277): control enters at the
matching label (the four special keys are pairwise distinct codes) and,
for lack of `break` statements, runs every later arm as well. -/
def onKeyboardTextCalls (key : KeyCode) : List (List Nat) :=
  if key = KeyCode.BACKSPACE then textCallsFromBackspace key
  else if key = KeyCode.DELETE then textCallsFromDelete key
  else if key = KeyCode.ENTER then textCallsFromEnter key
  else if key = KeyCode.LEFT then textCallsFromLeft key
  else textCallsFromDefault key

inductive KeyAction
  | PRESS
  | RELEASE
  | REPEAT
  deriving DecidableEq, Repr

/-- SDL_PRESSED / SDL_RELEASED button-state constants. -/
abbrev SDL_PRESSED : Nat := 1
abbrev SDL_RELEASED : Nat := 0

/-- Relevant fields of `SDL_KeyboardEvent`: `keysym.scancode`, `state`, and
the `repeat` flag (named `repeatFlag` here; `repeat` is a Lean tactic word). -/
structure KeyboardEvent where
  scancode : Nat
  state : Nat
  repeatFlag : Bool
  deriving Repr

/-- Callbacks issued by one run of `SDL2GameWindow::handleKeyboardEvent`:
the `onKeyboardText` payloads in order, then the `onKeyboard(key, action)`
calls (at most one). -/
structure KeyboardCallbacks where
  texts : List (List Nat)
  keys : List (KeyCode × KeyAction)
  deriving DecidableEq, Repr

/-- Embedding of `SDL2GameWindow::handleKeyboardEvent`
(window_sdl2.cpp:254-289): maps the scancode, classifies the action
(`repeat` flag takes precedence), synthesises text on `SDL_PRESSED`,
returns early (no `onKeyboard`) on an unrecognized `state`, and finally
calls `onKeyboard(key, action)`. -/
def handleKeyboardEvent (ev : KeyboardEvent) : KeyboardCallbacks :=
  let key := getKeyMinecraft ev.scancode
  if ev.repeatFlag then
    { texts := [], keys := [(key, KeyAction.REPEAT)] }
  else if ev.state = SDL_PRESSED then
    { texts := onKeyboardTextCalls key, keys := [(key, KeyAction.PRESS)] }
  else if ev.state = SDL_RELEASED then
    { texts := [], keys := [(key, KeyAction.RELEASE)] }
  else
    { texts := [], keys := [] }

/-! ## Event dispatch (window_sdl2.cpp:73-111) -/

/-- The raw `SDL_Event` discriminants the `pollEvents` `switch` mentions. -/
inductive SDLEventType
  | CONTROLLERDEVICEADDED
  | CONTROLLERDEVICEREMOVED
  | CONTROLLERAXISMOTION
  | CONTROLLERBUTTONDOWN
  | CONTROLLERBUTTONUP
  | MOUSEMOTION
  | MOUSEWHEEL
  | MOUSEBUTTONDOWN
  | MOUSEBUTTONUP
  | KEYDOWN
  | KEYUP
  | QUIT
  | OTHER
  deriving DecidableEq, Repr

/-- Which handler method `pollEvents` hands an event to (or `quit` for the
`SDL_Quit()` teardown arm). -/
inductive HandlerCall
  | controllerDevice
  | controllerAxis
  | controllerButton
  | mouseMotion
  | mouseWheel
  | mouseClick
  | keyboard
  | quit
  deriving DecidableEq, Repr

/-- The body of the `case SDL_KEYUP:` arm of `pollEvents`:
`handleKeyboardEvent(&event.key); break;` (window_sdl2.cpp:101-103).
Control reaches this label either directly or by fall-through from
`case SDL_KEYDOWN:`. -/
def keyupCaseCalls : List HandlerCall :=
  [HandlerCall.keyboard]

/-- The `case SDL_KEYDOWN:` arm of `pollEvents` (window_sdl2.cpp:99-100)
calls `handleKeyboardEvent(&event.key)` and has no `break`, so control
falls through into the `SDL_KEYUP` arm. -/
def keydownCaseCalls : List HandlerCall :=
  HandlerCall.keyboard :: keyupCaseCalls

/-- Embedding of the `switch (event.type)` in `SDL2GameWindow::pollEvents`
(window_sdl2.cpp:77-109): the list of handler invocations one drained raw
event produces. -/
def dispatchEvent (t : SDLEventType) : List HandlerCall :=
  match t with
  | .CONTROLLERDEVICEADDED => [HandlerCall.controllerDevice]
  | .CONTROLLERDEVICEREMOVED => [HandlerCall.controllerDevice]
  | .CONTROLLERAXISMOTION => [HandlerCall.controllerAxis]
  | .CONTROLLERBUTTONDOWN => [HandlerCall.controllerButton]
  | .CONTROLLERBUTTONUP => [HandlerCall.controllerButton]
  | .MOUSEMOTION => [HandlerCall.mouseMotion]
  | .MOUSEWHEEL => [HandlerCall.mouseWheel]
  | .MOUSEBUTTONDOWN => [HandlerCall.mouseClick]
  | .MOUSEBUTTONUP => [HandlerCall.mouseClick]
  | .KEYDOWN => keydownCaseCalls
  | .KEYUP => keyupCaseCalls
  | .QUIT => [HandlerCall.quit]
  | .OTHER => []

/-! ## Gamepad session tracking (window_sdl2.cpp:113-143)

`gamepad.count` is a C++ `int`, modelled as `Int`; an `onGamepadState(slot,
connected)` call is a `Nat × Bool` pair. -/

/-- The two `SDL_ControllerDeviceEvent` discriminants `pollEvents` routes to
`handleControllerDeviceEvent`, plus the handler's own `else` for anything
different. -/
inductive CDeviceEventType
  | ADDED
  | REMOVED
  | OTHER
  deriving DecidableEq, Repr

/-- Embedding of `SDL2GameWindow::handleControllerDeviceEvent`
(window_sdl2.cpp:113-143), as a function of the current `gamepad.count`.
Returns the new count and the `onGamepadState` calls issued.
`openOk` is the outcome of `SDL_GameControllerOpen`: the source only
branches on it for `printf`, so it influences neither count nor callback.
On `ADDED` the count is incremented and the function returns early when the
new count exceeds 1; on `REMOVED` with `count < 1` it returns early after
logging, otherwise decrements and returns early when the count is still
positive; the fall-through end emits `onGamepadState(0, type == ADDED)`. -/
def handleControllerDeviceEvent (count : Int) (etype : CDeviceEventType)
    (openOk : Bool) : Int × List (Nat × Bool) :=
  match etype with
  | .ADDED =>
      let c := count + 1
      if c > 1 then (c, [])
      else (c, [(0, true)])
  | .REMOVED =>
      if count < 1 then (count, [])
      else
        let c := count - 1
        if c > 0 then (c, [])
        else (c, [(0, false)])
  | .OTHER => (count, [])

/-- A hot-plug event as seen by the session tracker. -/
inductive GamepadEvent
  | connect (openOk : Bool)
  | disconnect
  deriving DecidableEq, Repr

/-- One session-tracker step: route a hot-plug event into
`handleControllerDeviceEvent` with the matching `SDL_Event` discriminant
(the `openOk` argument is irrelevant on `REMOVED`; the source never opens a
device there). -/
def stepGamepad (count : Int) (e : GamepadEvent) : Int × List (Nat × Bool) :=
  match e with
  | .connect ok => handleControllerDeviceEvent count .ADDED ok
  | .disconnect => handleControllerDeviceEvent count .REMOVED true

/-- Run the session tracker over an event sequence, accumulating the
`onGamepadState` calls in order. -/
def processGamepadEvents (count : Int) : List GamepadEvent → Int × List (Nat × Bool)
  | [] => (count, [])
  | e :: rest =>
      let r := stepGamepad count e
      let o := processGamepadEvents r.1 rest
      (o.1, r.2 ++ o.2)

/-! ## Mouse routing (window_sdl2.cpp:230-248, 291-294) -/

/-- The mutable window state the mouse claims touch: the `captured` flag,
initialized `false` in the constructor (window_sdl2.cpp:18). -/
structure WindowState where
  captured : Bool
  deriving DecidableEq, Repr

/-- Embedding of `SDL2GameWindow::setCursorDisabled` (window_sdl2.cpp:291-294):
`captured = disabled` (the `SDL_CaptureMouse` call has no modelled effect). -/
def setCursorDisabled (s : WindowState) (disabled : Bool) : WindowState :=
  { s with captured := disabled }

/-- Relevant fields of `SDL_MouseMotionEvent`: absolute coordinates and
relative deltas. -/
structure MouseMotionEvent where
  x : Int
  y : Int
  xrel : Int
  yrel : Int
  deriving DecidableEq, Repr

/-- A position callback: `onMousePosition(x, y)` or
`onMouseRelativePosition(dx, dy)`. -/
inductive MouseCallback
  | position (x y : Int)
  | relativePosition (dx dy : Int)
  deriving DecidableEq, Repr

/-- Embedding of `SDL2GameWindow::handleMouseMotionEvent`
(window_sdl2.cpp:241-248): branch on `captured`. -/
def handleMouseMotionEvent (s : WindowState) (ev : MouseMotionEvent) :
    List MouseCallback :=
  if s.captured then [MouseCallback.relativePosition ev.xrel ev.yrel]
  else [MouseCallback.position ev.x ev.y]

/-- Relevant fields of `SDL_MouseWheelEvent`: signed horizontal and vertical
deflections. -/
structure MouseWheelEvent where
  x : Int
  y : Int
  deriving DecidableEq, Repr

/-- Embedding of `SDL2GameWindow::handleMouseWheelEvent`
(window_sdl2.cpp:230-239): each emitted tuple is one
`onMouseScroll(x, y, dx, dy)` call.  All arguments the source passes are
integral, so the `double` parameters are modelled as `Int`. -/
def handleMouseWheelEvent (ev : MouseWheelEvent) :
    List (Int × Int × Int × Int) :=
  if ev.x < 0 then [(ev.x, ev.y, -1, 0)]
  else if ev.x > 0 then [(ev.x, ev.y, 1, 0)]
  else if ev.y < 0 then [(0, 0, 0, -1)]
  else if ev.y > 0 then [(0, 0, 0, 1)]
  else []

/-! ## Helper lemmas -/

set_option maxRecDepth 10000 in
/-- Table check of the letter arm of `getKeyMinecraft`: on the scancode range
4-29 the mapping is the constant offset `+61`. -/
lemma getKeyMinecraft_letter_table :
    ∀ s : Nat, s ≤ 29 → 4 ≤ s → getKeyMinecraft s = s + 61 := by decide

/-- The letter arm of `getKeyMinecraft`: every scancode in the `A ... Z` case
range is mapped by the constant offset `+61`. -/
lemma getKeyMinecraft_letter (s : Nat) (h1 : SDL_SCANCODE_A ≤ s)
    (h2 : s ≤ SDL_SCANCODE_Z) : getKeyMinecraft s = s + 61 :=
  getKeyMinecraft_letter_table s h2 h1

set_option maxRecDepth 10000 in
/-- Table check of the default arm of `getKeyMinecraft` over the bounded part
of the scancode space: every uncovered scancode up to 270 maps to
`UNKNOWN`. -/
lemma getKeyMinecraft_uncovered_small :
    ∀ s : Nat, s ≤ 270 → ¬ scancodeCovered s → getKeyMinecraft s = KeyCode.UNKNOWN := by
  decide

/-- Above the covered range every branch of `getKeyMinecraft` is refused, so
the result is `UNKNOWN`; each rewrite discharges one case of the switch. -/
lemma getKeyMinecraft_uncovered_large (s : Nat) (h : 271 ≤ s) :
    getKeyMinecraft s = KeyCode.UNKNOWN := by
  unfold getKeyMinecraft
  rw [if_neg (by omega : ¬ s = 39),
      if_neg (by omega : ¬ s = 30),
      if_neg (by omega : ¬ s = 31),
      if_neg (by omega : ¬ s = 32),
      if_neg (by omega : ¬ s = 33),
      if_neg (by omega : ¬ s = 34),
      if_neg (by omega : ¬ s = 35),
      if_neg (by omega : ¬ s = 36),
      if_neg (by omega : ¬ s = 37),
      if_neg (by omega : ¬ s = 38),
      if_neg (by omega : ¬(4 ≤ s ∧ s ≤ 29)),
      if_neg (by omega : ¬ s = 49),
      if_neg (by omega : ¬ s = 269),
      if_neg (by omega : ¬ s = 270),
      if_neg (by omega : ¬ s = 42),
      if_neg (by omega : ¬ s = 57),
      if_neg (by omega : ¬ s = 54),
      if_neg (by omega : ¬ s = 76),
      if_neg (by omega : ¬ s = 81),
      if_neg (by omega : ¬ s = 77),
      if_neg (by omega : ¬ s = 46),
      if_neg (by omega : ¬ s = 41),
      if_neg (by omega : ¬ s = 74),
      if_neg (by omega : ¬ s = 73),
      if_neg (by omega : ¬ s = 98),
      if_neg (by omega : ¬ s = 89),
      if_neg (by omega : ¬ s = 90),
      if_neg (by omega : ¬ s = 91),
      if_neg (by omega : ¬ s = 92),
      if_neg (by omega : ¬ s = 93),
      if_neg (by omega : ¬ s = 94),
      if_neg (by omega : ¬ s = 95),
      if_neg (by omega : ¬ s = 96),
      if_neg (by omega : ¬ s = 97),
      if_neg (by omega : ¬ s = 86),
      if_neg (by omega : ¬ s = 87),
      if_neg (by omega : ¬ s = 226),
      if_neg (by omega : ¬ s = 224),
      if_neg (by omega : ¬ s = 80),
      if_neg (by omega : ¬ s = 47),
      if_neg (by omega : ¬ s = 225),
      if_neg (by omega : ¬ s = 118),
      if_neg (by omega : ¬ s = 45),
      if_neg (by omega : ¬ s = 78),
      if_neg (by omega : ¬ s = 75),
      if_neg (by omega : ¬ s = 55),
      if_neg (by omega : ¬ s = 230),
      if_neg (by omega : ¬ s = 228),
      if_neg (by omega : ¬ s = 79),
      if_neg (by omega : ¬ s = 48),
      if_neg (by omega : ¬ s = 229),
      if_neg (by omega : ¬ s = 51),
      if_neg (by omega : ¬ s = 56),
      if_neg (by omega : ¬ s = 44),
      if_neg (by omega : ¬ s = 43)]

/-! ## Theorems about the claims -/

/-- C1: the spec requires that a key-press (state pressed, repeat false)
deliver exactly one `onKeyboardText` payload chosen by mutually exclusive
classification (BACKSPACE: only 0x08).  The code's text-synthesis `switch`
has no `break` statements, so pressing BACKSPACE (scancode 42) emits five
payloads: 0x08, 0x7F, newline, 0x1B, and the UTF-8 encoding of the key
code — this theorem evaluates the embedded handler at that failing input. -/
theorem keyboard_text_fallthrough_on_backspace :
    (handleKeyboardEvent
        { scancode := SDL_SCANCODE_BACKSPACE, state := SDL_PRESSED,
          repeatFlag := false }).texts
      = [[0x08], [0x7F], [0x0A], [0x1B], [0x08]] ∧
    ([[0x08], [0x7F], [0x0A], [0x1B], [0x08]] : List (List Nat)) ≠ [[0x08]] := by
  constructor
  · rfl
  · decide

/-- C2: the spec requires each drained key-down event to invoke the
keyboard synthesis-and-classification handler exactly once.  The
`SDL_KEYDOWN` arm of `pollEvents` has no `break` and falls through into the
`SDL_KEYUP` arm, so a key-down event invokes `handleKeyboardEvent` twice;
a key-up event invokes it once, as claimed. -/
theorem keydown_dispatch_double_invocation :
    (dispatchEvent SDLEventType.KEYDOWN).count HandlerCall.keyboard = 2 ∧
    (dispatchEvent SDLEventType.KEYUP).count HandlerCall.keyboard = 1 := by
  decide

/-- C3 counterexample: a connect event whose device open fails, arriving at
count 0, still emits `onGamepadState(0, true)` — the claim that no such
callback is emitted is false on the code. -/
theorem connect_open_failure_still_signals :
    (handleControllerDeviceEvent 0 CDeviceEventType.ADDED false).2
      = [(0, true)] := by
  decide

/-- C3 amended: a connect event participates in session accounting
independently of whether the device open succeeded — the count is always
incremented, and `onGamepadState(0, true)` is emitted exactly when the
count transitions from 0 to 1; the open outcome influences neither. -/
theorem connect_signal_independent_of_open (count : Int) (openOk : Bool)
    (h : 0 ≤ count) :
    (handleControllerDeviceEvent count CDeviceEventType.ADDED openOk).1
      = count + 1 ∧
    (handleControllerDeviceEvent count CDeviceEventType.ADDED openOk).2
      = (if count = 0 then [(0, true)] else []) := by
  unfold handleControllerDeviceEvent
  rcases eq_or_ne count 0 with h0 | h0
  · subst h0; norm_num
  · have hgt : count + 1 > 1 := by omega
    simp [hgt, h0]

/-- Closed instance of `connect_signal_independent_of_open` at count 3 with
a failed open. -/
theorem connect_signal_independent_of_open_witness :
    (handleControllerDeviceEvent 3 CDeviceEventType.ADDED false).1 = 3 + 1 ∧
    (handleControllerDeviceEvent 3 CDeviceEventType.ADDED false).2
      = (if (3 : Int) = 0 then [(0, true)] else []) :=
  connect_signal_independent_of_open 3 false (by norm_num)

/-- C4: starting from count 0, the sequence [connect, connect, disconnect,
disconnect] yields exactly the two calls `(0, true)` (after the first
connect) and `(0, false)` (after the second disconnect), the middle two
events yielding none; and in general a step emits a state callback exactly
on the 0-to-1 connect transition or the 1-to-0 disconnect transition. -/
theorem gamepad_session_transition_calls :
    processGamepadEvents 0 [GamepadEvent.connect true, GamepadEvent.connect true,
        GamepadEvent.disconnect, GamepadEvent.disconnect]
      = (0, [(0, true), (0, false)]) ∧
    stepGamepad 0 (GamepadEvent.connect true) = (1, [(0, true)]) ∧
    stepGamepad 1 (GamepadEvent.connect true) = (2, []) ∧
    stepGamepad 2 GamepadEvent.disconnect = (1, []) ∧
    stepGamepad 1 GamepadEvent.disconnect = (0, [(0, false)]) ∧
    ∀ (c : Int) (e : GamepadEvent), 0 ≤ c →
      ((stepGamepad c e).2 ≠ [] ↔
        ((∃ ok, e = GamepadEvent.connect ok) ∧ c = 0) ∨
        (e = GamepadEvent.disconnect ∧ c = 1)) := by
  refine ⟨by decide, by decide, by decide, by decide, by decide, ?_⟩
  intro c e hc
  cases e with
  | connect ok =>
      rcases eq_or_ne c 0 with h0 | h0
      · subst h0
        have hsnd : (stepGamepad 0 (GamepadEvent.connect ok)).2 = [(0, true)] := rfl
        rw [hsnd]
        exact iff_of_true (List.cons_ne_nil _ _) (Or.inl ⟨⟨ok, rfl⟩, rfl⟩)
      · have hsnd : (stepGamepad c (GamepadEvent.connect ok)).2 = [] := by
          simp only [stepGamepad, handleControllerDeviceEvent,
            if_pos (show c + 1 > 1 by omega)]
        rw [hsnd]
        refine iff_of_false (fun hne => hne rfl) ?_
        rintro (⟨-, hc0⟩ | ⟨hok, -⟩)
        · exact h0 hc0
        · exact GamepadEvent.noConfusion hok
  | disconnect =>
      rcases lt_or_ge c 1 with hlt | hge
      · have hc0 : c = 0 := by omega
        subst hc0
        have hsnd : (stepGamepad 0 GamepadEvent.disconnect).2 = [] := rfl
        rw [hsnd]
        refine iff_of_false (fun hne => hne rfl) ?_
        rintro (⟨⟨ok, hok⟩, -⟩ | ⟨-, h1⟩)
        · exact GamepadEvent.noConfusion hok
        · exact absurd h1 (by decide)
      · rcases eq_or_ne c 1 with h1 | h1
        · subst h1
          have hsnd : (stepGamepad 1 GamepadEvent.disconnect).2 = [(0, false)] := rfl
          rw [hsnd]
          exact iff_of_true (List.cons_ne_nil _ _) (Or.inr ⟨rfl, rfl⟩)
        · have hsnd : (stepGamepad c GamepadEvent.disconnect).2 = [] := by
            simp only [stepGamepad, handleControllerDeviceEvent,
              if_neg (show ¬ c < 1 by omega), if_pos (show c - 1 > 0 by omega)]
          rw [hsnd]
          refine iff_of_false (fun hne => hne rfl) ?_
          rintro (⟨⟨ok, hok⟩, -⟩ | ⟨-, hc1⟩)
          · exact GamepadEvent.noConfusion hok
          · exact h1 hc1

/-- Closed instance of the transition characterization in
`gamepad_session_transition_calls`: a disconnect at count 5 emits nothing. -/
theorem gamepad_session_transition_calls_witness :
    (stepGamepad 5 GamepadEvent.disconnect).2 ≠ [] ↔
      ((∃ ok, GamepadEvent.disconnect = GamepadEvent.connect ok) ∧ (5 : Int) = 0) ∨
      (GamepadEvent.disconnect = GamepadEvent.disconnect ∧ (5 : Int) = 1) :=
  gamepad_session_transition_calls.2.2.2.2.2 5 GamepadEvent.disconnect (by norm_num)

/-- C5: from a nonnegative count, every session-tracker step keeps the count
nonnegative and changes it by at most one (connect: +1; disconnect with
count at least 1: -1); a disconnect at count 0 leaves the count unchanged
and emits no callback. -/
theorem gamepad_count_invariant (c : Int) (e : GamepadEvent) (h : 0 ≤ c) :
    0 ≤ (stepGamepad c e).1 ∧
    ((stepGamepad c e).1 - c = 1 ∨ (stepGamepad c e).1 - c = -1 ∨
      (stepGamepad c e).1 = c) ∧
    ((∃ ok, e = GamepadEvent.connect ok) → (stepGamepad c e).1 = c + 1) ∧
    (e = GamepadEvent.disconnect → 1 ≤ c → (stepGamepad c e).1 = c - 1) ∧
    (e = GamepadEvent.disconnect → c = 0 →
      (stepGamepad c e).1 = c ∧ (stepGamepad c e).2 = []) := by
  cases e with
  | connect ok =>
      simp only [stepGamepad, handleControllerDeviceEvent]
      split_ifs with hgt <;>
        refine ⟨by omega, by omega, fun _ => rfl, by simp, by simp⟩
  | disconnect =>
      simp only [stepGamepad, handleControllerDeviceEvent]
      split_ifs with hlt hpos
      · exact ⟨by omega, by omega, by simp, fun _ h1 => absurd h1 (by omega),
          fun _ _ => ⟨rfl, rfl⟩⟩
      · exact ⟨by omega, by omega, by simp, fun _ _ => rfl,
          fun _ h0 => absurd h0 (by omega)⟩
      · exact ⟨by omega, by omega, by simp, fun _ _ => rfl,
          fun _ h0 => absurd h0 (by omega)⟩

/-- Closed instance of `gamepad_count_invariant` at count 0 with a
disconnect event. -/
theorem gamepad_count_invariant_witness :
    0 ≤ (stepGamepad 0 GamepadEvent.disconnect).1 ∧
    ((stepGamepad 0 GamepadEvent.disconnect).1 - 0 = 1 ∨
      (stepGamepad 0 GamepadEvent.disconnect).1 - 0 = -1 ∨
      (stepGamepad 0 GamepadEvent.disconnect).1 = 0) ∧
    ((∃ ok, GamepadEvent.disconnect = GamepadEvent.connect ok) →
      (stepGamepad 0 GamepadEvent.disconnect).1 = 0 + 1) ∧
    (GamepadEvent.disconnect = GamepadEvent.disconnect → 1 ≤ (0 : Int) →
      (stepGamepad 0 GamepadEvent.disconnect).1 = 0 - 1) ∧
    (GamepadEvent.disconnect = GamepadEvent.disconnect → (0 : Int) = 0 →
      (stepGamepad 0 GamepadEvent.disconnect).1 = 0 ∧
      (stepGamepad 0 GamepadEvent.disconnect).2 = []) :=
  gamepad_count_invariant 0 GamepadEvent.disconnect le_rfl

/-- C6: every mouse motion event produces exactly one position callback,
selected by the current capture flag — relative deltas when captured,
absolute coordinates otherwise — and after `setCursorDisabled` the very
next motion event routes according to the new flag value. -/
theorem mouse_motion_routing (s : WindowState) (ev : MouseMotionEvent)
    (b : Bool) :
    handleMouseMotionEvent s ev =
      [if s.captured then MouseCallback.relativePosition ev.xrel ev.yrel
       else MouseCallback.position ev.x ev.y] ∧
    handleMouseMotionEvent (setCursorDisabled s b) ev =
      [if b then MouseCallback.relativePosition ev.xrel ev.yrel
       else MouseCallback.position ev.x ev.y] := by
  unfold handleMouseMotionEvent setCursorDisabled
  constructor <;> split_ifs <;> simp_all

/-- C7: the scancode mapping is a total, deterministic function: equal
inputs give equal outputs, every input yields exactly one `KeyCode`, and
any scancode outside the explicitly covered cases (digits, the letter
range, and the individually listed keys) yields `UNKNOWN`. -/
theorem getKeyMinecraft_total_deterministic :
    (∀ s t : Nat, s = t → getKeyMinecraft s = getKeyMinecraft t) ∧
    (∀ s : Nat, ∃! k : KeyCode, getKeyMinecraft s = k) ∧
    (∀ s : Nat, ¬ scancodeCovered s → getKeyMinecraft s = KeyCode.UNKNOWN) := by
  refine ⟨fun s t h => by rw [h], fun s => ⟨getKeyMinecraft s, rfl, fun y hy => hy.symm⟩, ?_⟩
  intro s hs
  rcases le_or_lt s 270 with h | h
  · exact getKeyMinecraft_uncovered_small s h hs
  · exact getKeyMinecraft_uncovered_large s h

/-- Closed instance of `getKeyMinecraft_total_deterministic`: scancode 1000
is uncovered and maps to `UNKNOWN`. -/
theorem getKeyMinecraft_total_deterministic_witness :
    ¬ scancodeCovered 1000 ∧ getKeyMinecraft 1000 = KeyCode.UNKNOWN :=
  ⟨by decide, getKeyMinecraft_total_deterministic.2.2 1000 (by decide)⟩

/-- The ten digit scancodes, in enumeration order 0-9. -/
def digitScancodes : List Nat :=
  [SDL_SCANCODE_0, SDL_SCANCODE_1, SDL_SCANCODE_2, SDL_SCANCODE_3,
   SDL_SCANCODE_4, SDL_SCANCODE_5, SDL_SCANCODE_6, SDL_SCANCODE_7,
   SDL_SCANCODE_8, SDL_SCANCODE_9]

/-- The ten numeric key codes, in order NUM_0-NUM_9. -/
def numericKeyCodes : List KeyCode :=
  [KeyCode.NUM_0, KeyCode.NUM_1, KeyCode.NUM_2, KeyCode.NUM_3,
   KeyCode.NUM_4, KeyCode.NUM_5, KeyCode.NUM_6, KeyCode.NUM_7,
   KeyCode.NUM_8, KeyCode.NUM_9]

/-- C8: the scancode mapping sends each digit scancode to its own numeric
key code — a bijection of the ten digit scancodes onto the ten numeric key
codes (both lists are duplicate-free and the map matches them up
pointwise) — and on the letter range it is the constant offset +61, hence
injective, order-preserving, and landing in a contiguous range. -/
theorem digit_bijection_letter_offset :
    digitScancodes.map getKeyMinecraft = numericKeyCodes ∧
    digitScancodes.Nodup ∧ numericKeyCodes.Nodup ∧
    (∀ s : Nat, SDL_SCANCODE_A ≤ s → s ≤ SDL_SCANCODE_Z →
      getKeyMinecraft s = s + 61) ∧
    (∀ s t : Nat, SDL_SCANCODE_A ≤ s → s ≤ SDL_SCANCODE_Z →
      SDL_SCANCODE_A ≤ t → t ≤ SDL_SCANCODE_Z → s < t →
      getKeyMinecraft s < getKeyMinecraft t) := by
  refine ⟨by decide, by decide, by decide, getKeyMinecraft_letter, ?_⟩
  intro s t hs1 hs2 ht1 ht2 hlt
  rw [getKeyMinecraft_letter s hs1 hs2, getKeyMinecraft_letter t ht1 ht2]
  exact Nat.add_lt_add_right hlt 61

/-- Closed instance of `digit_bijection_letter_offset`: the first and last
letter scancodes map by the offset and in order. -/
theorem digit_bijection_letter_offset_witness :
    getKeyMinecraft 4 = 4 + 61 ∧ getKeyMinecraft 4 < getKeyMinecraft 29 :=
  ⟨digit_bijection_letter_offset.2.2.2.1 4 (by decide) (by decide),
   digit_bijection_letter_offset.2.2.2.2 4 29 (by decide) (by decide)
     (by decide) (by decide) (by decide)⟩

/-- C9: a mouse wheel event produces at most one `onMouseScroll` call, every
emitted call carries exactly one non-zero direction axis of unit magnitude
whose sign matches the corresponding input deflection, and the concrete
event (x = -3, y = 0) yields exactly the call with direction (-1, 0). -/
theorem wheel_single_unit_axis (ev : MouseWheelEvent) :
    (handleMouseWheelEvent ev).length ≤ 1 ∧
    (∀ px py dx dy : Int, (px, py, dx, dy) ∈ handleMouseWheelEvent ev →
      (dy = 0 ∧ ((ev.x < 0 ∧ dx = -1) ∨ (0 < ev.x ∧ dx = 1))) ∨
      (dx = 0 ∧ ((ev.y < 0 ∧ dy = -1) ∨ (0 < ev.y ∧ dy = 1)))) ∧
    handleMouseWheelEvent { x := -3, y := 0 } = [(-3, 0, -1, 0)] := by
  refine ⟨?_, ?_, by decide⟩
  · unfold handleMouseWheelEvent
    split_ifs <;> simp
  · intro px py dx dy hmem
    unfold handleMouseWheelEvent at hmem
    split_ifs at hmem with h1 h2 h3 h4 <;>
      simp only [List.mem_singleton, List.not_mem_nil, Prod.mk.injEq] at hmem
    · obtain ⟨-, -, hdx, hdy⟩ := hmem; left; exact ⟨hdy, Or.inl ⟨h1, hdx⟩⟩
    · obtain ⟨-, -, hdx, hdy⟩ := hmem; left; exact ⟨hdy, Or.inr ⟨h2, hdx⟩⟩
    · obtain ⟨-, -, hdx, hdy⟩ := hmem; right; exact ⟨hdx, Or.inl ⟨h3, hdy⟩⟩
    · obtain ⟨-, -, hdx, hdy⟩ := hmem; right; exact ⟨hdx, Or.inr ⟨h4, hdy⟩⟩

/-- Closed instance of `wheel_single_unit_axis`: the emitted call for the
event (x = -3, y = 5) has direction (-1, 0). -/
theorem wheel_single_unit_axis_witness :
    ((0 : Int) = 0 ∧ (((-3 : Int) < 0 ∧ (-1 : Int) = -1) ∨ ((0 : Int) < -3 ∧ (-1 : Int) = 1))) ∨
    ((-1 : Int) = 0 ∧ (((5 : Int) < 0 ∧ (0 : Int) = -1) ∨ ((0 : Int) < 5 ∧ (0 : Int) = 1))) :=
  (wheel_single_unit_axis { x := -3, y := 5 }).2.1 (-3) 5 (-1) 0 (by decide)

/-- C10: when the horizontal deflection is non-zero the horizontal axis
takes precedence — the single emitted call carries the horizontal unit
direction and no vertical direction, whatever the vertical deflection —
and an event with both deflections zero produces no call at all. -/
theorem wheel_horizontal_precedence :
    (∀ ev : MouseWheelEvent, ev.x ≠ 0 →
      handleMouseWheelEvent ev
        = [(ev.x, ev.y, if ev.x < 0 then -1 else 1, 0)]) ∧
    (∀ ev : MouseWheelEvent, ev.x = 0 → ev.y = 0 →
      handleMouseWheelEvent ev = []) := by
  constructor
  · intro ev hx
    unfold handleMouseWheelEvent
    rcases lt_or_gt_of_ne hx with h | h
    · simp [h]
    · have hnlt : ¬ ev.x < 0 := by omega
      simp [h, hnlt]
  · intro ev hx hy
    unfold handleMouseWheelEvent
    simp [hx, hy]

/-- Closed instance of `wheel_horizontal_precedence`: the event (x = -3,
y = 7) yields only the horizontal call, and (x = 0, y = 0) yields none. -/
theorem wheel_horizontal_precedence_witness :
    handleMouseWheelEvent { x := -3, y := 7 }
      = [(-3, 7, if (-3 : Int) < 0 then -1 else 1, 0)] ∧
    handleMouseWheelEvent { x := 0, y := 0 } = [] :=
  ⟨wheel_horizontal_precedence.1 { x := -3, y := 7 } (by decide),
   wheel_horizontal_precedence.2 { x := 0, y := 0 } rfl rfl⟩

end GameWindow
